import Mathlib

/-!
Shallow embedding of the reddit-thread-analyzer repository
(src/reddit_fetcher.py, src/ai_processor.py, src/main.py).

Pure Python code is translated into executable Lean definitions.  Network
I/O (the PRAW forum API and the OpenRouter HTTP API) is modelled by an
oracle structure `World`; every function that performs network traffic in
the source returns, next to its result, the list of network calls it
issued, so that "no network call" claims are statable.  Python `None` is
modelled with `Option`, raised exceptions that the source catches are
modelled with `Except`, and Python floats (the temperature parameter,
never computed with) are modelled as rationals.
-/

/-! ## Python string primitives used by the source -/

/-- Whitespace characters stripped by Python `str.strip()` (ASCII part). -/
def pyIsSpace (c : Char) : Bool :=
  c = ' ' || c = '\t' || c = '\n' || c = '\r' || c = '\x0b' || c = '\x0c'

/-- Python `str.strip()`. -/
def pyStrip (s : String) : String :=
  String.mk (((s.data.dropWhile pyIsSpace).reverse.dropWhile pyIsSpace).reverse)

/-- Python `str.lower()` (ASCII; the source only scans ASCII keywords). -/
def pyLower (s : String) : String :=
  String.mk (s.data.map Char.toLower)

/-- Does `hay` start with `needle`? -/
def listStartsWith : List Char → List Char → Bool
  | [], _ => true
  | _ :: _, [] => false
  | a :: as, b :: bs => a == b && listStartsWith as bs

/-- Is `needle` a contiguous sublist of `hay`? -/
def listContainsSub (needle : List Char) : List Char → Bool
  | [] => needle.isEmpty
  | b :: bs => listStartsWith needle (b :: bs) || listContainsSub needle bs

/-- Python `needle in hay` substring test. -/
def pyIn (needle hay : String) : Bool :=
  listContainsSub needle.data hay.data

/-- Python truthiness of an optional environment-variable string:
`os.getenv` yields `None` when unset, and `""` is falsy too. -/
def truthy : Option String → Bool
  | some s => !(s == "")
  | none => false

/-! ## Model of `urllib.parse.urlparse(url).path`

`extract_submission_id` only looks at the `.path` component, so we model
the scheme / netloc / query / fragment / params splitting that produces
it. -/

/-- Characters allowed in a URL scheme. -/
def isSchemeChar (c : Char) : Bool :=
  c.isAlpha || c.isDigit || c = '+' || c = '-' || c = '.'

/-- Drop a leading `scheme:` when present (first char alphabetic, all
scheme chars before the first colon). -/
def dropScheme (cs : List Char) : List Char :=
  match cs.findIdx? (fun c => c = ':') with
  | some i =>
    if 0 < i ∧ (cs.take i).all isSchemeChar ∧ (cs.headD ' ').isAlpha then
      cs.drop (i + 1)
    else cs
  | none => cs

/-- Drop `//netloc` when present: the netloc extends to the next
`/`, `?` or `#`. -/
def dropNetloc (cs : List Char) : List Char :=
  match cs with
  | '/' :: '/' :: rest => rest.dropWhile (fun c => (c != '/') && (c != '?') && (c != '#'))
  | _ => cs

/-- `urlparse` splits `;params` off the last path segment. -/
def removeParams (cs : List Char) : List Char :=
  let start := if cs.contains '/' then cs.length - 1 - (cs.reverse.findIdx (fun c => c = '/')) else 0
  match (cs.drop start).findIdx? (fun c => c = ';') with
  | some k => cs.take (start + k)
  | none => cs

/-- `urllib.parse.urlparse(url).path`. -/
def urlparsePath (url : String) : String :=
  let cs := url.data
  let cs := dropScheme cs
  let cs := dropNetloc cs
  let cs := cs.takeWhile (fun c => (c != '?') && (c != '#'))
  String.mk (removeParams cs)

/-- Python `str.split(sep)` for a single-character separator, on char
lists (keeps empty groups, like Python). -/
def splitOnChar (sep : Char) : List Char → List (List Char)
  | [] => [[]]
  | c :: cs =>
    let r := splitOnChar sep cs
    if c == sep then [] :: r
    else
      match r with
      | g :: gs => (c :: g) :: gs
      | [] => [[c]]

/-- `[p for p in urlparse(url).path.split('/') if p]` from
`extract_submission_id`. -/
def pathParts (url : String) : List String :=
  ((splitOnChar '/' (urlparsePath url).data).map String.mk).filter (fun p => p != "")

/-! ## `reddit_fetcher.extract_submission_id` -/

/-- `extract_submission_id(thread_url)` from src/reddit_fetcher.py.
The inner `ValueError` is caught by the function itself and re-raised as
`ValueError(f"Invalid Reddit URL format: {thread_url}")`; the caller
catches that, so we model the raise as `Except.error` carrying the
message. -/
def extract_submission_id (thread_url : String) : Except String String :=
  let parts := pathParts thread_url
  if parts.contains "comments" then
    let comments_index := parts.findIdx (fun p => p == "comments")
    if comments_index + 1 < parts.length then
      Except.ok (parts.getD (comments_index + 1) "")
    else
      Except.error ("Invalid Reddit URL format: " ++ thread_url)
  else
    Except.error ("Invalid Reddit URL format: " ++ thread_url)

deriving instance DecidableEq for Except

/-! ## Model of Python `json.loads`

`analyze_comment_relevance` feeds a regex-extracted substring to
`json.loads`.  We model JSON values with numbers kept as their lexemes
(the source never computes with them) and a fuel-based recursive-descent
parser implementing the `json.loads` grammar: optional surrounding
whitespace, objects, arrays, strings with escapes, numbers,
`true`/`false`/`null` (plus the `NaN`/`Infinity` extensions `json.loads`
accepts), and a trailing-data check. -/

inductive JValue where
  | null : JValue
  | bool : Bool → JValue
  | num : String → JValue
  | str : String → JValue
  | arr : List JValue → JValue
  | obj : List (String × JValue) → JValue

/-- JSON whitespace skipped by `json.loads`. -/
def isJsonWs (c : Char) : Bool :=
  c = ' ' || c = '\t' || c = '\n' || c = '\r'

/-- Python dict insertion: a repeated key overwrites the value in place,
a new key is appended. -/
def dictInsert (d : List (String × JValue)) (k : String) (v : JValue) : List (String × JValue) :=
  if d.any (fun p => p.1 == k) then
    d.map (fun p => if p.1 == k then (k, v) else p)
  else d ++ [(k, v)]

/-- Build a Python dict from object members in textual order. -/
def dictOfPairs (ps : List (String × JValue)) : List (String × JValue) :=
  ps.foldl (fun d p => dictInsert d p.1 p.2) []

/-- Python `key in dict`. -/
def objHasKey (fields : List (String × JValue)) (k : String) : Bool :=
  fields.any (fun p => p.1 == k)

def hexVal (c : Char) : Option Nat :=
  if c.isDigit then some (c.toNat - '0'.toNat)
  else if 'a' ≤ c ∧ c ≤ 'f' then some (c.toNat - 'a'.toNat + 10)
  else if 'A' ≤ c ∧ c ≤ 'F' then some (c.toNat - 'A'.toNat + 10)
  else none

/-- Parse the remainder of a JSON string literal (after the opening
quote), strict mode: escapes are decoded, raw control characters are
rejected. -/
def parseStringRest : Nat → List Char → List Char → Option (String × List Char)
  | 0, _, _ => none
  | _ + 1, [], _ => none
  | fuel + 1, c :: rest, acc =>
    if c = '"' then some (String.mk acc.reverse, rest)
    else if c = '\\' then
      match rest with
      | '"' :: r => parseStringRest fuel r ('"' :: acc)
      | '\\' :: r => parseStringRest fuel r ('\\' :: acc)
      | '/' :: r => parseStringRest fuel r ('/' :: acc)
      | 'b' :: r => parseStringRest fuel r ('\x08' :: acc)
      | 'f' :: r => parseStringRest fuel r ('\x0c' :: acc)
      | 'n' :: r => parseStringRest fuel r ('\n' :: acc)
      | 'r' :: r => parseStringRest fuel r ('\r' :: acc)
      | 't' :: r => parseStringRest fuel r ('\t' :: acc)
      | 'u' :: h1 :: h2 :: h3 :: h4 :: r =>
        match hexVal h1, hexVal h2, hexVal h3, hexVal h4 with
        | some a, some b, some cc, some d =>
          parseStringRest fuel r (Char.ofNat (((a * 16 + b) * 16 + cc) * 16 + d) :: acc)
        | _, _, _, _ => none
      | _ => none
    else if c.toNat < 32 then none
    else parseStringRest fuel rest (c :: acc)

/-- Lex the fraction/exponent tail of a JSON number; returns the lexeme
extension and the rest. -/
def lexNumberTail (cs : List Char) : List Char × List Char :=
  let (frac, cs1) :=
    match cs with
    | '.' :: r =>
      let ds := r.takeWhile Char.isDigit
      if ds.isEmpty then ([], cs) else ('.' :: ds, r.drop ds.length)
    | _ => ([], cs)
  match cs1 with
  | e :: r =>
    if e = 'e' ∨ e = 'E' then
      let (sgn, r2) :=
        match r with
        | '+' :: rr => (['+'], rr)
        | '-' :: rr => (['-'], rr)
        | _ => ([], r)
      let ds := r2.takeWhile Char.isDigit
      if ds.isEmpty then (frac, cs1) else (frac ++ e :: sgn ++ ds, r2.drop ds.length)
    else (frac, cs1)
  | [] => (frac, cs1)

/-- Lex a JSON number (or `NaN`/`Infinity`/`-Infinity`). -/
def parseNumber (cs : List Char) : Option (JValue × List Char) :=
  match cs with
  | 'N' :: 'a' :: 'N' :: r => some (JValue.num "NaN", r)
  | 'I' :: 'n' :: 'f' :: 'i' :: 'n' :: 'i' :: 't' :: 'y' :: r => some (JValue.num "Infinity", r)
  | '-' :: 'I' :: 'n' :: 'f' :: 'i' :: 'n' :: 'i' :: 't' :: 'y' :: r =>
    some (JValue.num "-Infinity", r)
  | _ =>
    let (sgn, cs1) :=
      match cs with
      | '-' :: r => (['-'], r)
      | _ => ([], cs)
    match cs1 with
    | c :: r =>
      if c = '0' then
        let (tail, rest) := lexNumberTail r
        some (JValue.num (String.mk (sgn ++ '0' :: tail)), rest)
      else if c.isDigit then
        let ds := r.takeWhile Char.isDigit
        let (tail, rest) := lexNumberTail (r.drop ds.length)
        some (JValue.num (String.mk (sgn ++ c :: ds ++ tail)), rest)
      else none
    | [] => none

mutual

/-- Parse one JSON value, skipping leading whitespace. -/
def parseVal : Nat → List Char → Option (JValue × List Char)
  | 0, _ => none
  | fuel + 1, cs =>
    match cs.dropWhile isJsonWs with
    | [] => none
    | c :: rest =>
      if c = '{' then
        match rest.dropWhile isJsonWs with
        | '}' :: r2 => some (JValue.obj [], r2)
        | r1 => parseMembers fuel r1 []
      else if c = '[' then
        match rest.dropWhile isJsonWs with
        | ']' :: r2 => some (JValue.arr [], r2)
        | r1 => parseItems fuel r1 []
      else if c = '"' then
        match parseStringRest (rest.length + 1) rest [] with
        | some (s, r2) => some (JValue.str s, r2)
        | none => none
      else if c = 't' then
        match rest with
        | 'r' :: 'u' :: 'e' :: r => some (JValue.bool true, r)
        | _ => none
      else if c = 'f' then
        match rest with
        | 'a' :: 'l' :: 's' :: 'e' :: r => some (JValue.bool false, r)
        | _ => none
      else if c = 'n' then
        match rest with
        | 'u' :: 'l' :: 'l' :: r => some (JValue.null, r)
        | _ => none
      else parseNumber (c :: rest)

/-- Parse object members, first key expected at the head of the input. -/
def parseMembers : Nat → List Char → List (String × JValue) → Option (JValue × List Char)
  | 0, _, _ => none
  | fuel + 1, cs, acc =>
    match cs with
    | '"' :: rest =>
      match parseStringRest (rest.length + 1) rest [] with
      | some (key, r1) =>
        match r1.dropWhile isJsonWs with
        | ':' :: r2 =>
          match parseVal fuel r2 with
          | some (v, r3) =>
            match r3.dropWhile isJsonWs with
            | ',' :: r4 => parseMembers fuel (r4.dropWhile isJsonWs) ((key, v) :: acc)
            | '}' :: r4 => some (JValue.obj (dictOfPairs ((key, v) :: acc).reverse), r4)
            | _ => none
          | none => none
        | _ => none
      | none => none
    | _ => none

/-- Parse array items. -/
def parseItems : Nat → List Char → List JValue → Option (JValue × List Char)
  | 0, _, _ => none
  | fuel + 1, cs, acc =>
    match parseVal fuel cs with
    | some (v, r1) =>
      match r1.dropWhile isJsonWs with
      | ',' :: r2 => parseItems fuel r2 (v :: acc)
      | ']' :: r2 => some (JValue.arr (v :: acc).reverse, r2)
      | _ => none
    | none => none

end

/-- Python `json.loads`: one value, optional surrounding whitespace,
error on trailing data. -/
def jsonLoads (s : String) : Option JValue :=
  match parseVal (4 * s.data.length + 16) s.data with
  | some (v, rest) => if rest.dropWhile isJsonWs = [] then some v else none
  | none => none

example : jsonLoads "\x7b\"is_relevant\": \"yes\", \"reasoning\": \"ok\"\x7d" =
    some (JValue.obj [("is_relevant", JValue.str "yes"), ("reasoning", JValue.str "ok")]) := rfl

example : jsonLoads " \x7b\"a\": [1, 2.5e3, true, null], \"a\": \"dup\"\x7d " =
    some (JValue.obj [("a", JValue.str "dup")]) := rfl

example : jsonLoads "\x7b\"a\": 1\x7d extra" = none := rfl

example : extract_submission_id "https://www.reddit.com/r/test/comments/abc123/title/" = Except.ok "abc123" := by decide

example : extract_submission_id "https://www.reddit.com/r/test/" =
    Except.error "Invalid Reddit URL format: https://www.reddit.com/r/test/" := by decide

/-! ## `ai_processor.analyze_comment_relevance`: JSON extraction and fallback -/

/-- `re.search(r'\x7b[\s\S]*\x7d', content)`: the match starts at the
first brace that has some closing brace strictly after it (the leftmost
possible start) and, being greedy, extends to the last closing brace of
the whole text. -/
def extractBraceSpan (content : String) : Option String :=
  let cs := content.data
  let i := cs.findIdx (fun c => c == '{')
  if i < cs.length ∧ (cs.drop (i + 1)).contains '}' then
    let j := cs.length - 1 - (cs.reverse.findIdx (fun c => c == '}'))
    some (String.mk ((cs.drop i).take (j + 1 - i)))
  else none

example : extractBraceSpan "abc" = none := rfl
example : extractBraceSpan "x \x7b\"a\": 1\x7d y \x7b\x7d z" = some "\x7b\"a\": 1\x7d y \x7b\x7d" := rfl
example : extractBraceSpan "\x7d\x7b" = none := rfl

/-- The keyword-scan fallback of `analyze_comment_relevance`: scans the
lower-cased content for `"yes"`, then `"somewhat"`, then `"no"` as
substrings, defaulting to `"unknown"`; the reasoning is the content. -/
def keywordFallback (content : String) : List (String × JValue) :=
  let lower := pyLower content
  if pyIn "yes" lower then [("is_relevant", JValue.str "yes"), ("reasoning", JValue.str content)]
  else if pyIn "somewhat" lower then [("is_relevant", JValue.str "somewhat"), ("reasoning", JValue.str content)]
  else if pyIn "no" lower then [("is_relevant", JValue.str "no"), ("reasoning", JValue.str content)]
  else [("is_relevant", JValue.str "unknown"), ("reasoning", JValue.str content)]

/-- The response-content handling of `analyze_comment_relevance`: extract
a brace-delimited span, `json.loads` it, return the dict when it has both
required keys, otherwise fall back to the keyword scan (a
`json.JSONDecodeError` is caught and also falls through to the scan). -/
def analyzeContent (content : String) : List (String × JValue) :=
  match extractBraceSpan content with
  | some json_str =>
    match jsonLoads json_str with
    | some (JValue.obj fields) =>
      if objHasKey fields "is_relevant" && objHasKey fields "reasoning" then fields
      else keywordFallback content
    | _ => keywordFallback content
  | none => keywordFallback content

/-! ## Data model: forum objects, LLM API objects, environment -/

/-- A PRAW submission, as consumed by the source (only these attributes
are read). -/
structure Submission where
  title : String
  selftext : String
  score : Int
  author : String
deriving DecidableEq

/-- A flattened comment.  `body` is `none` when the object has no `body`
attribute (the `hasattr(comment, 'body')` check in main.py), `some ""`
when the body is empty. -/
structure Comment where
  id : String
  author : String
  score : Int
  body : Option String
deriving DecidableEq

/-- A chat message sent to the OpenRouter API. -/
structure ChatMsg where
  role : String
  content : String
deriving DecidableEq

structure Message where
  content : String
deriving DecidableEq

structure Choice where
  message : Message
deriving DecidableEq

/-- The response shape `{choices: [{message: {content}}]}` the source
expects; any response of a different shape makes the source return
`None`, which we model as the oracle answering `none`. -/
structure ApiResponse where
  choices : List Choice
deriving DecidableEq

/-- The environment variables the source reads. -/
structure Env where
  REDDIT_CLIENT_ID : Option String
  REDDIT_CLIENT_SECRET : Option String
  REDDIT_USER_AGENT : Option String
  OPENROUTER_API_KEY : Option String
  OPENROUTER_API_BASE : Option String
deriving DecidableEq

/-- The authenticated PRAW instance (constructing it performs no network
traffic). -/
structure Reddit where
  client_id : String
  client_secret : String
  user_agent : String
deriving DecidableEq

/-- The OpenRouter client configuration dict. -/
structure ClientConfig where
  api_key : String
  api_base : String
deriving DecidableEq

/-- The JSON payload `make_openrouter_request` posts (temperature as a
rational standing for the Python float). -/
structure Payload where
  model : String
  messages : List ChatMsg
  max_tokens : Nat
  temperature : ℚ
  response_format : Option String
deriving DecidableEq

/-- One network call issued by the program. -/
inductive NetCall where
  | llm : Payload → NetCall
  | forum : String → NetCall
deriving DecidableEq

/-- The network oracle: how the outside world answers the two APIs.
`forumFetch` stands for the whole PRAW retrieval (submission lookup,
comment-sort, `replace_more`, flattening) and yields the full flattened
comment list; `llmRespond` stands for the OpenRouter HTTP round trip,
answering `none` on any request failure or unusable response shape. -/
structure World where
  llmRespond : Payload → Option ApiResponse
  forumFetch : Reddit → String → Except String (Submission × List Comment)

/-! ## `ai_processor` -/

/-- `get_openrouter_client()` from src/ai_processor.py.  `ValueError` on
a missing (unset or empty) API key. -/
def get_openrouter_client (env : Env) : Except String ClientConfig :=
  let api_base :=
    match env.OPENROUTER_API_BASE with
    | some v => v
    | none => "https://openrouter.ai/api/v1"
  if truthy env.OPENROUTER_API_KEY then
    Except.ok { api_key := env.OPENROUTER_API_KEY.getD "", api_base := api_base }
  else
    Except.error "Missing OpenRouter API key (OPENROUTER_API_KEY)"

/-- The payload construction in `make_openrouter_request`, including the
Gemini-specific overrides (lower temperature; JSON response mode when
some message content mentions `"JSON"`). -/
def buildPayload (messages : List ChatMsg) (model : String) (max_tokens : Nat)
    (temperature : ℚ) : Payload :=
  let base : Payload :=
    { model := model, messages := messages, max_tokens := max_tokens,
      temperature := temperature, response_format := none }
  if pyIn "gemini" (pyLower model) then
    let t := min temperature (6 / 10 : ℚ)
    if messages.any (fun m => pyIn "JSON" m.content) then
      { base with temperature := t, response_format := some "json_object" }
    else
      { base with temperature := t }
  else base

/-- `make_openrouter_request` from src/ai_processor.py: build the
payload, POST it (one network call); any `RequestException` or non-2xx
status is the oracle answering `none`. -/
def make_openrouter_request (w : World) (_client_config : ClientConfig)
    (messages : List ChatMsg) (model : String) (max_tokens : Nat) (temperature : ℚ) :
    Option ApiResponse × List NetCall :=
  let payload := buildPayload messages model max_tokens temperature
  (w.llmRespond payload, [NetCall.llm payload])

/-- The system message of the summarization prompt. -/
def summarizeSystemMsg : ChatMsg :=
  { role := "system",
    content := "You are a concise summarization assistant. Create clear, brief summaries that capture the main points accurately." }

/-- The user message of the summarization prompt. -/
def summarizeUserMsg (text : String) (max_length : Nat) : ChatMsg :=
  { role := "user",
    content := "Summarize the following text in " ++ toString max_length ++ " words or less. Focus on the key information:\n\nTEXT TO SUMMARIZE:\n" ++ text ++ "\n\nSUMMARY:" }

/-- `summarize_text(client_config, text, model, max_length)` from
src/ai_processor.py.  Inputs whose stripped form is shorter than 10
characters are rejected before any network call; otherwise one request
is made and the stripped first-choice content is returned, `none` on
failure. -/
def summarize_text (w : World) (client_config : ClientConfig) (text : String)
    (model : String) (max_length : Nat) : Option String × List NetCall :=
  if text = "" ∨ (pyStrip text).data.length < 10 then
    (some "Text too short to summarize", [])
  else
    let messages := [summarizeSystemMsg, summarizeUserMsg text max_length]
    let resp := make_openrouter_request w client_config messages model 1000 (7 / 10)
    match resp.1 with
    | some r =>
      match r.choices with
      | c :: _ => (some (pyStrip c.message.content), resp.2)
      | [] => (none, resp.2)
    | none => (none, resp.2)

/-- The system message of the relevance prompt. -/
def relevanceSystemMsg : ChatMsg :=
  { role := "system",
    content := "You are a comment analysis assistant. You determine if comments are relevant to the original post and explain your reasoning in JSON format." }

/-- The user message of the relevance prompt. -/
def relevanceUserMsg (original_post comment_text : String) : ChatMsg :=
  { role := "user",
    content := "Determine if the comment is relevant to the original post and return the result in JSON format.\n\nORIGINAL POST:\n" ++ original_post ++ "\n\nCOMMENT:\n" ++ comment_text ++ "\n\nReturn a JSON object with exactly these fields:\n\x7b\"is_relevant\": \"yes\"|\"somewhat\"|\"no\", \"reasoning\": \"brief 1-2 sentence explanation\"\x7d" }

/-- `analyze_comment_relevance(client_config, original_post,
comment_text, model)` from src/ai_processor.py. -/
def analyze_comment_relevance (w : World) (client_config : ClientConfig)
    (original_post comment_text : String) (model : String) :
    Option (List (String × JValue)) × List NetCall :=
  if original_post = "" ∨ comment_text = "" then
    (some [("is_relevant", JValue.str "unknown"),
           ("reasoning", JValue.str "Missing original post or comment text")], [])
  else
    let messages := [relevanceSystemMsg, relevanceUserMsg original_post comment_text]
    let resp := make_openrouter_request w client_config messages model 1000 (7 / 10)
    match resp.1 with
    | some r =>
      match r.choices with
      | c :: _ => (some (analyzeContent (pyStrip c.message.content)), resp.2)
      | [] => (none, resp.2)
    | none => (none, resp.2)

/-! ## `reddit_fetcher` -/

/-- `get_reddit_instance()` from src/reddit_fetcher.py.  `ValueError`
listing the missing credentials when any of the three is unset or empty;
constructing the PRAW instance itself is lazy and performs no network
call. -/
def get_reddit_instance (env : Env) : Except String Reddit :=
  if !truthy env.REDDIT_CLIENT_ID ∨ !truthy env.REDDIT_CLIENT_SECRET ∨
      !truthy env.REDDIT_USER_AGENT then
    let missing :=
      (if !truthy env.REDDIT_CLIENT_ID then ["REDDIT_CLIENT_ID"] else []) ++
      (if !truthy env.REDDIT_CLIENT_SECRET then ["REDDIT_CLIENT_SECRET"] else []) ++
      (if !truthy env.REDDIT_USER_AGENT then ["REDDIT_USER_AGENT"] else [])
    Except.error ("Missing Reddit API credentials: " ++ String.intercalate ", " missing)
  else
    Except.ok { client_id := env.REDDIT_CLIENT_ID.getD "",
                client_secret := env.REDDIT_CLIENT_SECRET.getD "",
                user_agent := env.REDDIT_USER_AGENT.getD "" }

/-- `fetch_thread_data(reddit, thread_url, comment_limit)` from
src/reddit_fetcher.py.  URL-extraction failure raises before any network
traffic; the whole body is wrapped in `try/except` returning
`(None, [])`; on success the flattened comment list is truncated to
`comment_limit`. -/
def fetch_thread_data (w : World) (reddit : Reddit) (thread_url : String)
    (comment_limit : Nat) : (Option Submission × List Comment) × List NetCall :=
  match extract_submission_id thread_url with
  | Except.error _ => ((none, []), [])
  | Except.ok submission_id =>
    match w.forumFetch reddit submission_id with
    | Except.error _ => ((none, []), [NetCall.forum submission_id])
    | Except.ok sc => ((some sc.1, sc.2.take comment_limit), [NetCall.forum submission_id])

/-! ## `main.process_reddit_thread` -/

/-- One processed-comment dict from the main loop. -/
structure CommentData where
  id : String
  author : String
  score : Int
  text : String
  summary : String
  relevance : List (String × JValue)

/-- The aggregated results dict. -/
structure Results where
  thread_url : String
  thread_title : String
  thread_op_text : String
  thread_score : Int
  thread_author : String
  processed_comments : List CommentData

/-- `comment_data['summary'] = summary if summary else "Summarization
failed."` (Python falsy: `None` or the empty string). -/
def summaryField : Option String → String
  | some s => if s = "" then "Summarization failed." else s
  | none => "Summarization failed."

/-- `comment_data['relevance'] = relevance_info if relevance_info else
{'is_relevant': 'unknown', 'reasoning': 'Analysis failed.'}` (Python
falsy: `None` or the empty dict). -/
def relevanceField : Option (List (String × JValue)) → List (String × JValue)
  | some [] => [("is_relevant", JValue.str "unknown"), ("reasoning", JValue.str "Analysis failed.")]
  | some (p :: ps) => p :: ps
  | none => [("is_relevant", JValue.str "unknown"), ("reasoning", JValue.str "Analysis failed.")]

/-- Does the loop keep this comment?  `if not hasattr(comment, 'body')
or not comment.body: continue`. -/
def commentHasBody (c : Comment) : Bool :=
  match c.body with
  | some b => b != ""
  | none => false

/-- The `for i, comment in enumerate(comments)` loop of
`process_reddit_thread`: skip comments without a non-empty body,
summarize and classify the rest, collecting the records in order (the
loop index is only used for logging). -/
def processComments (w : World) (or_client : ClientConfig) (op_text : String)
    (comments : List Comment) (summary_model relevance_model : String) :
    List CommentData × List NetCall :=
  match comments with
  | [] => ([], [])
  | c :: rest =>
    match c.body with
    | none => processComments w or_client op_text rest summary_model relevance_model
    | some b =>
      if b = "" then processComments w or_client op_text rest summary_model relevance_model
      else
        let s := summarize_text w or_client b summary_model 100
        let r := analyze_comment_relevance w or_client op_text b relevance_model
        let cd : CommentData :=
          { id := c.id, author := c.author, score := c.score, text := b,
            summary := summaryField s.1, relevance := relevanceField r.1 }
        let tail := processComments w or_client op_text rest summary_model relevance_model
        (cd :: tail.1, s.2 ++ r.2 ++ tail.2)

/-- `process_reddit_thread(thread_url, comment_limit, summary_model,
relevance_model)` from src/main.py. -/
def process_reddit_thread (w : World) (env : Env) (thread_url : String)
    (comment_limit : Nat) (summary_model relevance_model : String) :
    Option Results × List NetCall :=
  match get_reddit_instance env, get_openrouter_client env with
  | Except.ok reddit, Except.ok or_client =>
    let fr := fetch_thread_data w reddit thread_url comment_limit
    match fr.1.1 with
    | none => (none, fr.2)
    | some submission =>
      let op_text := if submission.selftext ≠ "" then submission.selftext else submission.title
      let pc := processComments w or_client op_text fr.1.2 summary_model relevance_model
      (some { thread_url := thread_url,
              thread_title := submission.title,
              thread_op_text := submission.selftext,
              thread_score := submission.score,
              thread_author := submission.author,
              processed_comments := pc.1 }, fr.2 ++ pc.2)
  | _, _ => (none, [])

/-! ## Concrete test fixtures -/

def envOK : Env :=
  { REDDIT_CLIENT_ID := some "cid", REDDIT_CLIENT_SECRET := some "sec",
    REDDIT_USER_AGENT := some "ua", OPENROUTER_API_KEY := some "key",
    OPENROUTER_API_BASE := none }

def redditOK : Reddit := { client_id := "cid", client_secret := "sec", user_agent := "ua" }

def cfgOK : ClientConfig := { api_key := "key", api_base := "https://openrouter.ai/api/v1" }

def urlOK : String := "https://www.reddit.com/r/test/comments/abc123/title/"

def subTest : Submission := { title := "t", selftext := "", score := 1, author := "alice" }

def commentHi : Comment := { id := "c1", author := "u1", score := 5, body := some "hi" }

def commentEmpty : Comment := { id := "c2", author := "u2", score := 0, body := some "" }

/-- A world whose LLM gateway always fails and whose forum serves one
thread with two comments. -/
def wTest : World :=
  { llmRespond := fun _ => none,
    forumFetch := fun _ sid =>
      if sid = "abc123" then Except.ok (subTest, [commentHi, commentEmpty])
      else Except.error "not found" }

/-- A world whose forum always fails. -/
def wFetchErr : World :=
  { llmRespond := fun _ => none, forumFetch := fun _ _ => Except.error "boom" }

def emptyResults : Results :=
  { thread_url := "", thread_title := "", thread_op_text := "", thread_score := 0,
    thread_author := "", processed_comments := [] }

/-! ## Helper lemmas -/

theorem length_dropWhile_le' {α : Type} (p : α → Bool) (l : List α) :
    (l.dropWhile p).length ≤ l.length := by
  induction l with
  | nil => simp
  | cons a l ih =>
    by_cases h : p a
    · simp only [List.dropWhile_cons, h, if_true, List.length_cons]
      omega
    · simp [List.dropWhile_cons, h]

theorem pyStrip_length_le (s : String) : (pyStrip s).data.length ≤ s.data.length := by
  unfold pyStrip
  calc (String.mk (((s.data.dropWhile pyIsSpace).reverse.dropWhile pyIsSpace).reverse)).data.length
      = (((s.data.dropWhile pyIsSpace).reverse.dropWhile pyIsSpace).reverse).length := rfl
    _ ≤ s.data.length := by
        rw [List.length_reverse]
        calc ((s.data.dropWhile pyIsSpace).reverse.dropWhile pyIsSpace).length
            ≤ (s.data.dropWhile pyIsSpace).reverse.length := length_dropWhile_le' _ _
          _ = (s.data.dropWhile pyIsSpace).length := List.length_reverse _
          _ ≤ s.data.length := length_dropWhile_le' _ _

/-! ## Claim C7: short inputs to `summarize_text` -/

/-- C7: for every input text shorter than 10 characters, `summarize_text`
returns the fixed "too short" marker string and issues no network
call. -/
theorem summarize_short_text_no_network (w : World) (cfg : ClientConfig)
    (text model : String) (max_length : Nat) (h : text.length < 10) :
    summarize_text w cfg text model max_length = (some "Text too short to summarize", []) := by
  have hs : (pyStrip text).data.length < 10 := by
    have := pyStrip_length_le text
    have hlen : text.length = text.data.length := rfl
    omega
  unfold summarize_text
  rw [if_pos (Or.inr hs)]

/-- Witness for C7 at the concrete input `"short"`. -/
theorem summarize_short_text_no_network_witness :
    summarize_text wTest cfgOK "short" "m" 100 = (some "Text too short to summarize", []) :=
  summarize_short_text_no_network wTest cfgOK "short" "m" 100 (by decide)

/-! ## Claim C4: missing forum credentials -/

/-- C4: if any one of the three forum credentials is absent from the
environment (unset or empty), `process_reddit_thread` returns `None`
and issues no network call. -/
theorem missing_credentials_returns_null (w : World) (env : Env) (url : String)
    (N : Nat) (sm rm : String)
    (h : truthy env.REDDIT_CLIENT_ID = false ∨ truthy env.REDDIT_CLIENT_SECRET = false ∨
         truthy env.REDDIT_USER_AGENT = false) :
    process_reddit_thread w env url N sm rm = (none, []) := by
  have hcond : (!truthy env.REDDIT_CLIENT_ID) = true ∨ (!truthy env.REDDIT_CLIENT_SECRET) = true ∨
      (!truthy env.REDDIT_USER_AGENT) = true := by
    rcases h with h | h | h <;> simp [h]
  cases hgr : get_reddit_instance env with
  | ok reddit =>
    exfalso
    unfold get_reddit_instance at hgr
    rw [if_pos hcond] at hgr
    cases hgr
  | error e =>
    cases hoc : get_openrouter_client env <;> simp [process_reddit_thread, hgr, hoc]

/-- Witness for C4: client id unset in an otherwise complete
environment. -/
theorem missing_credentials_returns_null_witness :
    process_reddit_thread wTest
      { envOK with REDDIT_CLIENT_ID := none } urlOK 2 "m" "m" = (none, []) :=
  missing_credentials_returns_null wTest { envOK with REDDIT_CLIENT_ID := none } urlOK 2 "m" "m"
    (Or.inl rfl)

/-! ## Claim C5: fetch errors -/

/-- C5: every fetch error makes `fetch_thread_data` return an empty
result (no submission, empty comment list) instead of raising — both
when the URL has no extractable id and when the forum call fails — and a
`None` submission makes `process_reddit_thread` return `None` for the
whole request. -/
theorem fetch_error_empty_result_and_null :
    (∀ (w : World) (reddit : Reddit) (url : String) (limit : Nat) (e : String),
       extract_submission_id url = Except.error e →
       fetch_thread_data w reddit url limit = ((none, []), [])) ∧
    (∀ (w : World) (reddit : Reddit) (url : String) (limit : Nat) (sid e : String),
       extract_submission_id url = Except.ok sid →
       w.forumFetch reddit sid = Except.error e →
       fetch_thread_data w reddit url limit = ((none, []), [NetCall.forum sid])) ∧
    (∀ (w : World) (env : Env) (url : String) (limit : Nat) (sm rm : String) (reddit : Reddit),
       get_reddit_instance env = Except.ok reddit →
       (fetch_thread_data w reddit url limit).1.1 = none →
       (process_reddit_thread w env url limit sm rm).1 = none) := by
  refine ⟨?_, ?_, ?_⟩
  · intro w reddit url limit e hx
    simp [fetch_thread_data, hx]
  · intro w reddit url limit sid e hx hf
    simp [fetch_thread_data, hx, hf]
  · intro w env url limit sm rm reddit hr hf
    cases hoc : get_openrouter_client env with
    | error e => simp [process_reddit_thread, hr, hoc]
    | ok cfg => simp [process_reddit_thread, hr, hoc, hf]

/-- Witness for C5: a failing forum oracle at a well-formed URL, and a
URL without an id, both end in the empty result and a `None`
orchestrator answer. -/
theorem fetch_error_empty_result_and_null_witness :
    fetch_thread_data wFetchErr redditOK "https://www.reddit.com/r/test/" 2 = ((none, []), []) ∧
    fetch_thread_data wFetchErr redditOK urlOK 2 = ((none, []), [NetCall.forum "abc123"]) ∧
    (process_reddit_thread wFetchErr envOK urlOK 2 "m" "m").1 = none :=
  ⟨fetch_error_empty_result_and_null.1 wFetchErr redditOK "https://www.reddit.com/r/test/" 2 _ rfl,
   fetch_error_empty_result_and_null.2.1 wFetchErr redditOK urlOK 2 "abc123" "boom" rfl rfl,
   fetch_error_empty_result_and_null.2.2 wFetchErr envOK urlOK 2 "m" "m" redditOK rfl rfl⟩

/-! ## The main loop produces one record per kept comment, in order -/

/-- The record the main loop builds for a comment it keeps. -/
def mkCommentData (w : World) (cfg : ClientConfig) (op_text sm rm : String)
    (c : Comment) : CommentData :=
  { id := c.id, author := c.author, score := c.score, text := c.body.getD "",
    summary := summaryField (summarize_text w cfg (c.body.getD "") sm 100).1,
    relevance := relevanceField (analyze_comment_relevance w cfg op_text (c.body.getD "") rm).1 }

theorem mkCommentData_id (w : World) (cfg : ClientConfig) (op sm rm : String) (c : Comment) :
    (mkCommentData w cfg op sm rm c).id = c.id := rfl

theorem mkCommentData_text (w : World) (cfg : ClientConfig) (op sm rm : String) (c : Comment) :
    (mkCommentData w cfg op sm rm c).text = c.body.getD "" := rfl

theorem processComments_records (w : World) (cfg : ClientConfig) (op sm rm : String)
    (cs : List Comment) :
    (processComments w cfg op cs sm rm).1 =
      (cs.filter commentHasBody).map (mkCommentData w cfg op sm rm) := by
  induction cs with
  | nil => rfl
  | cons c rest ih =>
    cases hb : c.body with
    | none =>
      have hcb : commentHasBody c = false := by simp [commentHasBody, hb]
      simp [processComments, hb, List.filter_cons, hcb, ih]
    | some b =>
      by_cases hbe : b = ""
      · have hcb : commentHasBody c = false := by simp [commentHasBody, hb, hbe]
        simp [processComments, hb, hbe, List.filter_cons, hcb, ih]
      · have hcb : commentHasBody c = true := by simp [commentHasBody, hb, hbe]
        simp [processComments, hb, hbe, List.filter_cons, hcb, ih, mkCommentData]

/-! ## Claim C1: comment limit, order, empty-body skipping -/

/-- C1: when the thread fetch succeeds, `process_reddit_thread` with
`comment_limit = N` returns at most `N` comment records; the records
follow the fetched comment order, and comments with an empty or absent
body produce no record (they are exactly the ones filtered out). -/
theorem process_respects_comment_limit (w : World) (env : Env) (url : String) (N : Nat)
    (sm rm : String) (reddit : Reddit) (cfg : ClientConfig) (sid : String)
    (sub : Submission) (cs : List Comment) (res : Results) (trace : List NetCall)
    (hr : get_reddit_instance env = Except.ok reddit)
    (hc : get_openrouter_client env = Except.ok cfg)
    (hid : extract_submission_id url = Except.ok sid)
    (hf : w.forumFetch reddit sid = Except.ok (sub, cs))
    (hp : process_reddit_thread w env url N sm rm = (some res, trace)) :
    res.processed_comments.length ≤ N ∧
    res.processed_comments.map (fun cd => cd.id) =
      ((cs.take N).filter commentHasBody).map (fun c => c.id) ∧
    res.processed_comments.map (fun cd => cd.text) =
      ((cs.take N).filter commentHasBody).map (fun c => c.body.getD "") := by
  have hfetch : fetch_thread_data w reddit url N = ((some sub, cs.take N), [NetCall.forum sid]) := by
    simp [fetch_thread_data, hid, hf]
  have hproc : process_reddit_thread w env url N sm rm =
      (some { thread_url := url, thread_title := sub.title, thread_op_text := sub.selftext,
              thread_score := sub.score, thread_author := sub.author,
              processed_comments :=
                (processComments w cfg (if sub.selftext ≠ "" then sub.selftext else sub.title)
                  (cs.take N) sm rm).1 },
       [NetCall.forum sid] ++
         (processComments w cfg (if sub.selftext ≠ "" then sub.selftext else sub.title)
           (cs.take N) sm rm).2) := by
    simp [process_reddit_thread, hr, hc, hfetch]
  rw [hproc] at hp
  simp only [Prod.mk.injEq, Option.some.injEq] at hp
  obtain ⟨hres, -⟩ := hp
  subst hres
  refine ⟨?_, ?_, ?_⟩
  · calc ((processComments w cfg _ (cs.take N) sm rm).1).length
        = (((cs.take N).filter commentHasBody).map (mkCommentData w cfg _ sm rm)).length := by
          rw [processComments_records]
      _ = ((cs.take N).filter commentHasBody).length := List.length_map _ _
      _ ≤ (cs.take N).length := (List.filter_sublist _).length_le
      _ ≤ N := by rw [List.length_take]; exact min_le_left _ _
  · rw [processComments_records, List.map_map]
    simp [Function.comp, mkCommentData_id]
  · rw [processComments_records, List.map_map]
    simp [Function.comp, mkCommentData_text]

def resTest : Results :=
  ((process_reddit_thread wTest envOK urlOK 2 "m" "m").1).getD emptyResults

def traceTest : List NetCall :=
  (process_reddit_thread wTest envOK urlOK 2 "m" "m").2

/-- Witness for C1: thread with one non-empty and one empty comment,
limit 2 — one record, in order, for the non-empty one. -/
theorem process_respects_comment_limit_witness :
    resTest.processed_comments.length ≤ 2 ∧
    resTest.processed_comments.map (fun cd => cd.id) =
      (([commentHi, commentEmpty].take 2).filter commentHasBody).map (fun c => c.id) ∧
    resTest.processed_comments.map (fun cd => cd.text) =
      (([commentHi, commentEmpty].take 2).filter commentHasBody).map (fun c => c.body.getD "") :=
  process_respects_comment_limit wTest envOK urlOK 2 "m" "m" redditOK cfgOK "abc123" subTest
    [commentHi, commentEmpty] resTest traceTest rfl rfl rfl rfl rfl

/-! ## Claim C10: truncation happens before empty-body filtering -/

def commentA : Comment := { id := "a1", author := "ua", score := 1, body := some "aaaaa" }

def commentC : Comment := { id := "a3", author := "uc", score := 1, body := some "ccccc" }

/-- Three fetched comments: the second of the first two has an empty
body, and two comments overall have non-empty bodies. -/
def commentsC10 : List Comment := [commentA, commentEmpty, commentC]

def wC10 : World :=
  { llmRespond := fun _ => none,
    forumFetch := fun _ sid =>
      if sid = "abc123" then Except.ok (subTest, commentsC10) else Except.error "not found" }

/-- C10: `fetch_thread_data` truncates the flattened list to the limit
before the loop filters empty bodies, so a fetched list with two
non-empty-body comments, one of whose first two entries is empty-bodied,
yields strictly fewer than two records at `comment_limit = 2` (filtering
first would have yielded two). -/
theorem truncation_before_filtering :
    2 ≤ (commentsC10.filter commentHasBody).length ∧
    commentHasBody (commentsC10.getD 1 commentA) = false ∧
    ((process_reddit_thread wC10 envOK urlOK 2 "m" "m").1).map
      (fun r => r.processed_comments.length) = some 1 ∧
    ((commentsC10.filter commentHasBody).take 2).length = 2 := by
  refine ⟨by decide, by decide, ?_, by decide⟩
  rfl

/-! ## Claim C6: per-comment LLM failures are recovered locally -/

theorem get?_append_length {α : Type} (A : List α) (x : α) (B : List α) :
    (A ++ x :: B).get? A.length = some x := by
  induction A with
  | nil => rfl
  | cons a A ih => exact ih

/-- C6: inside the main loop, a comment with a non-empty body always
produces a record at its position; when `summarize_text` fails (`None`)
the record carries the fixed failure marker, when
`analyze_comment_relevance` fails (`None`) the record carries the
"unknown" verdict with the failure reasoning — and the loop still
produces a record for every other non-empty-body comment (no abort). -/
theorem per_comment_failure_recovered (w : World) (cfg : ClientConfig) (op sm rm : String)
    (pre post : List Comment) (c : Comment) (b : String)
    (hb : c.body = some b) (hne : b ≠ "") :
    ((processComments w cfg op (pre ++ c :: post) sm rm).1).length =
      ((pre ++ c :: post).filter commentHasBody).length ∧
    ∃ cd, ((processComments w cfg op (pre ++ c :: post) sm rm).1).get?
        ((pre.filter commentHasBody).length) = some cd ∧
      cd.id = c.id ∧ cd.text = b ∧
      ((summarize_text w cfg b sm 100).1 = none → cd.summary = "Summarization failed.") ∧
      ((analyze_comment_relevance w cfg op b rm).1 = none →
        cd.relevance = [("is_relevant", JValue.str "unknown"),
                        ("reasoning", JValue.str "Analysis failed.")]) := by
  have hcb : commentHasBody c = true := by simp [commentHasBody, hb, hne]
  have hrecs := processComments_records w cfg op sm rm (pre ++ c :: post)
  have hfilter : (pre ++ c :: post).filter commentHasBody =
      pre.filter commentHasBody ++ c :: post.filter commentHasBody := by
    rw [List.filter_append, List.filter_cons, hcb]
    rfl
  constructor
  · rw [hrecs, List.length_map]
  · refine ⟨mkCommentData w cfg op sm rm c, ?_, rfl, ?_, ?_, ?_⟩
    · rw [hrecs, hfilter, List.map_append, List.map_cons]
      have hlen : ((pre.filter commentHasBody).map (mkCommentData w cfg op sm rm)).length =
          (pre.filter commentHasBody).length := List.length_map _ _
      rw [← hlen]
      exact get?_append_length _ _ _
    · simp [mkCommentData, hb]
    · intro hs
      simp [mkCommentData, hb, hs, summaryField]
    · intro hrel
      simp [mkCommentData, hb, hrel, relevanceField]

def commentLong : Comment :=
  { id := "c9", author := "u9", score := 2, body := some "this is a long comment" }

/-- Witness for C6: with a world whose LLM gateway always fails, the
long comment after a skipped empty one gets both failure markers and the
loop length still counts every non-empty-body comment. -/
theorem per_comment_failure_recovered_witness :
    ((processComments wTest cfgOK "op" ([commentEmpty] ++ commentLong :: []) "m" "m").1).length =
      (([commentEmpty] ++ commentLong :: []).filter commentHasBody).length ∧
    ∃ cd, ((processComments wTest cfgOK "op" ([commentEmpty] ++ commentLong :: []) "m" "m").1).get?
        (([commentEmpty].filter commentHasBody).length) = some cd ∧
      cd.id = commentLong.id ∧ cd.text = "this is a long comment" ∧
      ((summarize_text wTest cfgOK "this is a long comment" "m" 100).1 = none →
        cd.summary = "Summarization failed.") ∧
      ((analyze_comment_relevance wTest cfgOK "op" "this is a long comment" "m").1 = none →
        cd.relevance = [("is_relevant", JValue.str "unknown"),
                        ("reasoning", JValue.str "Analysis failed.")]) :=
  per_comment_failure_recovered wTest cfgOK "op" "m" "m" [commentEmpty] [] commentLong
    "this is a long comment" rfl (by decide)

/-! ## Claim C9: the post text handed to relevance classification -/

theorem buildPayload_messages (msgs : List ChatMsg) (model : String) (mt : Nat) (t : ℚ) :
    (buildPayload msgs model mt t).messages = msgs := by
  unfold buildPayload
  by_cases h : pyIn "gemini" (pyLower model) = true
  · by_cases h2 : msgs.any (fun m => pyIn "JSON" m.content) = true <;> simp [h, h2]
  · simp [h]

/-- The trace of one `summarize_text` call: nothing (short input) or the
single summarization request. -/
theorem summarize_text_trace (w : World) (cfg : ClientConfig) (text model : String) (ml : Nat) :
    (summarize_text w cfg text model ml).2 = [] ∨
    (summarize_text w cfg text model ml).2 =
      [NetCall.llm (buildPayload [summarizeSystemMsg, summarizeUserMsg text ml] model 1000 (7 / 10))] := by
  by_cases h : text = "" ∨ (pyStrip text).data.length < 10
  · left
    unfold summarize_text
    rw [if_pos h]
  · right
    unfold summarize_text
    rw [if_neg h]
    simp only [make_openrouter_request]
    cases w.llmRespond (buildPayload [summarizeSystemMsg, summarizeUserMsg text ml] model 1000 (7 / 10)) with
    | none => rfl
    | some r =>
      obtain ⟨choices⟩ := r
      cases choices with
      | nil => rfl
      | cons ch rest => rfl

/-- The trace of one `analyze_comment_relevance` call: nothing (missing
input) or the single relevance request. -/
theorem analyze_relevance_trace (w : World) (cfg : ClientConfig) (post ctext model : String) :
    (analyze_comment_relevance w cfg post ctext model).2 = [] ∨
    (analyze_comment_relevance w cfg post ctext model).2 =
      [NetCall.llm (buildPayload [relevanceSystemMsg, relevanceUserMsg post ctext] model 1000 (7 / 10))] := by
  by_cases h : post = "" ∨ ctext = ""
  · left
    unfold analyze_comment_relevance
    rw [if_pos h]
  · right
    unfold analyze_comment_relevance
    rw [if_neg h]
    simp only [make_openrouter_request]
    cases w.llmRespond (buildPayload [relevanceSystemMsg, relevanceUserMsg post ctext] model 1000 (7 / 10)) with
    | none => rfl
    | some r =>
      obtain ⟨choices⟩ := r
      cases choices with
      | nil => rfl
      | cons ch rest => rfl

/-- Every LLM call the main loop issues is either a summarization
request for some comment body or a relevance request pairing the loop's
`op_text` with some comment body. -/
theorem processComments_trace_calls (w : World) (cfg : ClientConfig) (op sm rm : String)
    (cs : List Comment) :
    ∀ p ∈ (processComments w cfg op cs sm rm).2,
      (∃ b, p = NetCall.llm (buildPayload [summarizeSystemMsg, summarizeUserMsg b 100] sm 1000 (7 / 10))) ∨
      (∃ b, p = NetCall.llm (buildPayload [relevanceSystemMsg, relevanceUserMsg op b] rm 1000 (7 / 10))) := by
  induction cs with
  | nil => intro p hp; cases hp
  | cons c rest ih =>
    intro p hp
    cases hb : c.body with
    | none =>
      rw [show processComments w cfg op (c :: rest) sm rm =
            processComments w cfg op rest sm rm by simp [processComments, hb]] at hp
      exact ih p hp
    | some b =>
      by_cases hbe : b = ""
      · rw [show processComments w cfg op (c :: rest) sm rm =
              processComments w cfg op rest sm rm by simp [processComments, hb, hbe]] at hp
        exact ih p hp
      · have hps : (processComments w cfg op (c :: rest) sm rm).2 =
            (summarize_text w cfg b sm 100).2 ++ (analyze_comment_relevance w cfg op b rm).2 ++
            (processComments w cfg op rest sm rm).2 := by
          simp [processComments, hb, hbe]
        rw [hps] at hp
        rcases List.mem_append.mp hp with hp1 | hptail
        · rcases List.mem_append.mp hp1 with hpsum | hprel
          · rcases summarize_text_trace w cfg b sm 100 with hs | hs
            · rw [hs] at hpsum; cases hpsum
            · rw [hs] at hpsum
              rcases List.mem_singleton.mp hpsum with rfl
              exact Or.inl ⟨b, rfl⟩
          · rcases analyze_relevance_trace w cfg op b rm with hr | hr
            · rw [hr] at hprel; cases hprel
            · rw [hr] at hprel
              rcases List.mem_singleton.mp hprel with rfl
              exact Or.inr ⟨b, rfl⟩
        · exact ih p hptail

/-- C9: whenever the thread fetch succeeds, the per-request results keep
the raw selftext in `thread_op_text`, while every relevance-classification
request (recognised by its system message) carries the substituted post
text — the selftext when non-empty, the title otherwise. -/
theorem relevance_receives_op_text (w : World) (env : Env) (url : String) (N : Nat)
    (sm rm : String) (reddit : Reddit) (cfg : ClientConfig) (sid : String)
    (sub : Submission) (cs : List Comment) (res : Results) (trace : List NetCall)
    (hr : get_reddit_instance env = Except.ok reddit)
    (hc : get_openrouter_client env = Except.ok cfg)
    (hid : extract_submission_id url = Except.ok sid)
    (hf : w.forumFetch reddit sid = Except.ok (sub, cs))
    (hp : process_reddit_thread w env url N sm rm = (some res, trace)) :
    res.thread_op_text = sub.selftext ∧
    ∀ payload, NetCall.llm payload ∈ trace →
      payload.messages.head? = some relevanceSystemMsg →
      ∃ b, payload.messages =
        [relevanceSystemMsg,
         relevanceUserMsg (if sub.selftext ≠ "" then sub.selftext else sub.title) b] := by
  have hfetch : fetch_thread_data w reddit url N = ((some sub, cs.take N), [NetCall.forum sid]) := by
    simp [fetch_thread_data, hid, hf]
  have hproc : process_reddit_thread w env url N sm rm =
      (some { thread_url := url, thread_title := sub.title, thread_op_text := sub.selftext,
              thread_score := sub.score, thread_author := sub.author,
              processed_comments :=
                (processComments w cfg (if sub.selftext ≠ "" then sub.selftext else sub.title)
                  (cs.take N) sm rm).1 },
       [NetCall.forum sid] ++
         (processComments w cfg (if sub.selftext ≠ "" then sub.selftext else sub.title)
           (cs.take N) sm rm).2) := by
    simp [process_reddit_thread, hr, hc, hfetch]
  rw [hproc] at hp
  simp only [Prod.mk.injEq, Option.some.injEq] at hp
  obtain ⟨hres, htrace⟩ := hp
  subst hres
  subst htrace
  refine ⟨rfl, ?_⟩
  intro payload hmem hhead
  rcases List.mem_append.mp hmem with hfor | hllm
  · rcases List.mem_singleton.mp hfor with h
    cases h
  · rcases processComments_trace_calls w cfg _ sm rm (cs.take N) _ hllm with ⟨b, hpay⟩ | ⟨b, hpay⟩
    · exfalso
      have : payload.messages = [summarizeSystemMsg, summarizeUserMsg b 100] := by
        cases hpay
        exact buildPayload_messages _ _ _ _
      rw [this] at hhead
      have : summarizeSystemMsg = relevanceSystemMsg := Option.some.inj hhead
      exact absurd this (by decide)
    · refine ⟨b, ?_⟩
      cases hpay
      exact buildPayload_messages _ _ _ _

def relPayloadTest : Payload :=
  buildPayload [relevanceSystemMsg, relevanceUserMsg "t" "hi"] "m" 1000 (7 / 10)

/-- Witness for C9: in the concrete run, the results carry the raw
(empty) selftext and the one relevance request carries the title. -/
theorem relevance_receives_op_text_witness :
    resTest.thread_op_text = "" ∧
    (∃ b, relPayloadTest.messages =
      [relevanceSystemMsg,
       relevanceUserMsg (if subTest.selftext ≠ "" then subTest.selftext else subTest.title) b]) := by
  have h := relevance_receives_op_text wTest envOK urlOK 2 "m" "m" redditOK cfgOK "abc123"
    subTest [commentHi, commentEmpty] resTest traceTest rfl rfl rfl rfl rfl
  exact ⟨h.1, h.2 relPayloadTest (List.Mem.tail _ (List.Mem.head _)) rfl⟩

/-! ## Claim C3: URL parsing -/

theorem findIdx_append_first (p : String → Bool) (pre : List String) (x : String)
    (rest : List String) (hpre : ∀ a ∈ pre, p a = false) (hx : p x = true) :
    (pre ++ x :: rest).findIdx p = pre.length := by
  induction pre with
  | nil => simp [List.findIdx_cons, hx]
  | cons a pre ih =>
    have ha : p a = false := hpre a (List.mem_cons_self a pre)
    have ih2 := ih (fun b hb => hpre b (List.mem_cons_of_mem a hb))
    simp [List.findIdx_cons, ha, ih2]

theorem getD_append_cons {α : Type} (pre : List α) (x y : α) (rest : List α) (d : α) :
    (pre ++ x :: y :: rest).getD (pre.length + 1) d = y := by
  induction pre with
  | nil => rfl
  | cons a pre ih => exact ih

/-- C3 (amended): the parser returns the segment immediately after the
first "comments" path segment when one follows; it fails with the
InvalidURL error when the path has no "comments" segment, and also when
the first "comments" segment is the last path segment. -/
theorem extract_submission_id_spec :
    (∀ (url : String) (pre : List String) (sid : String) (rest : List String),
       pathParts url = pre ++ "comments" :: sid :: rest → "comments" ∉ pre →
       extract_submission_id url = Except.ok sid) ∧
    (∀ url : String, "comments" ∉ pathParts url →
       extract_submission_id url = Except.error ("Invalid Reddit URL format: " ++ url)) ∧
    (∀ (url : String) (pre : List String),
       pathParts url = pre ++ ["comments"] → "comments" ∉ pre →
       extract_submission_id url = Except.error ("Invalid Reddit URL format: " ++ url)) := by
  have hbeq : ∀ (pre : List String), "comments" ∉ pre →
      ∀ a ∈ pre, (a == "comments") = false := by
    intro pre hpre a ha
    exact beq_eq_false_iff_ne.mpr (fun h => hpre (h ▸ ha))
  refine ⟨?_, ?_, ?_⟩
  · intro url pre sid rest hparts hpre
    have hcont : (pathParts url).contains "comments" = true := by
      rw [hparts]
      exact List.elem_eq_true_of_mem (by simp)
    have hidx : (pathParts url).findIdx (fun p => p == "comments") = pre.length := by
      rw [hparts]
      exact findIdx_append_first _ pre _ _ (hbeq pre hpre) (by simp)
    have hlt : pre.length + 1 < (pathParts url).length := by
      rw [hparts]
      simp [List.length_append]
    simp only [extract_submission_id]
    rw [if_pos hcont, hidx, if_pos hlt, hparts]
    rw [getD_append_cons]
  · intro url hmem
    have hcont : (pathParts url).contains "comments" = false := by simpa using hmem
    simp only [extract_submission_id]
    rw [hcont]
    rfl
  · intro url pre hparts hpre
    have hcont : (pathParts url).contains "comments" = true := by
      rw [hparts]
      exact List.elem_eq_true_of_mem (by simp)
    have hidx : (pathParts url).findIdx (fun p => p == "comments") = pre.length := by
      rw [hparts]
      exact findIdx_append_first _ pre _ _ (hbeq pre hpre) (by simp)
    have hlen : (pathParts url).length = pre.length + 1 := by
      rw [hparts]
      simp
    have hnlt : ¬ (pre.length + 1 < (pathParts url).length) := by
      rw [hlen]
      omega
    simp only [extract_submission_id]
    rw [if_pos hcont, hidx, if_neg hnlt]

/-- Counterexample for C3 as frozen: this URL contains the consecutive
path segments `comments`, `z` — i.e. it contains `/comments/z/` — yet
the parser returns `"comments"` (the segment after the first
`"comments"`), not `"z"`. -/
theorem extract_submission_id_cex :
    pathParts "https://www.reddit.com/x/comments/comments/z/" =
      ["x", "comments", "comments", "z"] ∧
    extract_submission_id "https://www.reddit.com/x/comments/comments/z/" =
      Except.ok "comments" ∧
    extract_submission_id "https://www.reddit.com/x/comments/comments/z/" ≠ Except.ok "z" :=
  ⟨by decide, by decide, by decide⟩

/-- Witness for the amended C3: a well-formed thread URL, a URL with no
comments segment, and one with comments as the final segment. -/
theorem extract_submission_id_spec_witness :
    extract_submission_id urlOK = Except.ok "abc123" ∧
    extract_submission_id "https://www.reddit.com/r/test/" =
      Except.error "Invalid Reddit URL format: https://www.reddit.com/r/test/" ∧
    extract_submission_id "https://www.reddit.com/r/test/comments/" =
      Except.error "Invalid Reddit URL format: https://www.reddit.com/r/test/comments/" :=
  ⟨extract_submission_id_spec.1 urlOK ["r", "test"] "abc123" ["title"] (by decide) (by decide),
   extract_submission_id_spec.2.1 "https://www.reddit.com/r/test/" (by decide),
   extract_submission_id_spec.2.2 "https://www.reddit.com/r/test/comments/" ["r", "test"]
     (by decide) (by decide)⟩

/-! ## Claims C2 and C8: relevance-response parsing and the keyword fallback -/

/-- The condition under which `analyze_comment_relevance` reaches its
keyword fallback: the brace span (when one exists) does not parse to a
JSON object carrying both required keys. -/
def fallbackTriggered (content : String) : Prop :=
  ∀ (s : String) (fields : List (String × JValue)),
    extractBraceSpan content = some s →
    jsonLoads s = some (JValue.obj fields) →
    objHasKey fields "is_relevant" = false ∨ objHasKey fields "reasoning" = false

/-- Shared helper: whenever extraction/parsing does not yield an object
with both keys, `analyzeContent` is the keyword fallback. -/
theorem analyzeContent_of_fallback (content : String) (hft : fallbackTriggered content) :
    analyzeContent content = keywordFallback content := by
  unfold analyzeContent
  cases hx : extractBraceSpan content with
  | none => rfl
  | some s =>
    cases hj : jsonLoads s with
    | none => simp [hj]
    | some v =>
      cases v with
      | null => simp [hj]
      | bool b => simp [hj]
      | num n => simp [hj]
      | str st => simp [hj]
      | arr xs => simp [hj]
      | obj fields =>
        rcases hft s fields hx hj with h | h <;> simp [hj, h]

/-- C2 (amended): when the greedy brace span of the response content
parses as a JSON object containing both `is_relevant` and `reasoning`,
`analyze_comment_relevance` returns exactly that parsed object (field
values verbatim); whenever the span is absent, malformed, or lacks a
key, the result is the keyword fallback; and whatever the content, a
response carrying at least one choice always yields a result — no
exception escapes. -/
theorem analyze_relevance_spec :
    (∀ (content s : String) (fields : List (String × JValue)),
       extractBraceSpan content = some s →
       jsonLoads s = some (JValue.obj fields) →
       objHasKey fields "is_relevant" = true → objHasKey fields "reasoning" = true →
       analyzeContent content = fields) ∧
    (∀ content : String, fallbackTriggered content →
       analyzeContent content = keywordFallback content) ∧
    (∀ (w : World) (cfg : ClientConfig) (post ctext model : String) (c1 : Choice)
       (rest : List Choice) (r : ApiResponse),
       w.llmRespond (buildPayload [relevanceSystemMsg, relevanceUserMsg post ctext]
         model 1000 (7 / 10)) = some r →
       r.choices = c1 :: rest →
       ∃ out, (analyze_comment_relevance w cfg post ctext model).1 = some out) := by
  refine ⟨?_, ?_, ?_⟩
  · intro content s fields hx hj h1 h2
    simp [analyzeContent, hx, hj, h1, h2]
  · intro content hft
    exact analyzeContent_of_fallback content hft
  · intro w cfg post ctext model c1 rest r hresp hch
    by_cases h : post = "" ∨ ctext = ""
    · refine ⟨[("is_relevant", JValue.str "unknown"),
               ("reasoning", JValue.str "Missing original post or comment text")], ?_⟩
      unfold analyze_comment_relevance
      rw [if_pos h]
    · refine ⟨analyzeContent (pyStrip c1.message.content), ?_⟩
      unfold analyze_comment_relevance
      rw [if_neg h]
      simp [make_openrouter_request, hresp, hch]

/-- The exact content of the C2 counterexample: a valid JSON object with
both fields, followed by a second brace pair. -/
def cexContent : String :=
  "\x7b\"is_relevant\": \"maybe\", \"reasoning\": \"fine\"\x7d \x7b\"extra\": 1\x7d"

def cexJsonSub : String := "\x7b\"is_relevant\": \"maybe\", \"reasoning\": \"fine\"\x7d"

/-- A world whose LLM gateway answers with `cexContent`. -/
def wC2 : World :=
  { llmRespond := fun _ => some { choices := [{ message := { content := cexContent } }] },
    forumFetch := fun _ _ => Except.error "unused" }

/-- Counterexample for C2 as frozen: the response text contains (as a
substring) a valid JSON object whose fields are `"maybe"` and `"fine"`,
yet `analyze_comment_relevance` returns the keyword-fallback dict —
verdict `"unknown"` with the whole content as reasoning — because the
greedy brace span swallows the trailing `\x7b"extra": 1\x7d` and fails
`json.loads`. -/
theorem analyze_relevance_cex :
    pyIn cexJsonSub cexContent = true ∧
    jsonLoads cexJsonSub =
      some (JValue.obj [("is_relevant", JValue.str "maybe"), ("reasoning", JValue.str "fine")]) ∧
    (analyze_comment_relevance wC2 cfgOK "post" "comment" "m").1 =
      some [("is_relevant", JValue.str "unknown"), ("reasoning", JValue.str cexContent)] ∧
    ("unknown" : String) ≠ "maybe" ∧ cexContent ≠ "fine" :=
  ⟨rfl, rfl, rfl, by decide, by decide⟩

/-- The verbatim-return example content for the C2 witness. -/
def verbContent : String := "\x7b\"is_relevant\": \"yes\", \"reasoning\": \"ok\"\x7d"

/-- Witness for the amended C2: a clean JSON response is returned
verbatim, a brace-free response falls back, and the full call with a
one-choice response always produces a result. -/
theorem analyze_relevance_spec_witness :
    analyzeContent verbContent =
      [("is_relevant", JValue.str "yes"), ("reasoning", JValue.str "ok")] ∧
    analyzeContent "no json here" = keywordFallback "no json here" ∧
    (∃ out, (analyze_comment_relevance wC2 cfgOK "post" "comment" "m").1 = some out) :=
  ⟨analyze_relevance_spec.1 verbContent verbContent
      [("is_relevant", JValue.str "yes"), ("reasoning", JValue.str "ok")] rfl rfl rfl rfl,
   analyze_relevance_spec.2.1 "no json here"
      (fun s fields hx _ => by
        rw [show extractBraceSpan "no json here" = none from rfl] at hx
        cases hx),
   analyze_relevance_spec.2.2 wC2 cfgOK "post" "comment" "m"
      { message := { content := cexContent } } [] { choices := [{ message := { content := cexContent } }] }
      rfl rfl⟩

/-- C8: whenever the JSON route does not produce an object with both
keys, `analyze_comment_relevance` scans the lower-cased raw text — first
for "yes", then "somewhat", then "no" (a plain substring test), and
defaults to "unknown" — always with the raw content as the reasoning. -/
theorem keyword_fallback_spec :
    (∀ content : String, fallbackTriggered content →
       pyIn "yes" (pyLower content) = true →
       analyzeContent content =
         [("is_relevant", JValue.str "yes"), ("reasoning", JValue.str content)]) ∧
    (∀ content : String, fallbackTriggered content →
       pyIn "yes" (pyLower content) = false → pyIn "somewhat" (pyLower content) = true →
       analyzeContent content =
         [("is_relevant", JValue.str "somewhat"), ("reasoning", JValue.str content)]) ∧
    (∀ content : String, fallbackTriggered content →
       pyIn "yes" (pyLower content) = false → pyIn "somewhat" (pyLower content) = false →
       pyIn "no" (pyLower content) = true →
       analyzeContent content =
         [("is_relevant", JValue.str "no"), ("reasoning", JValue.str content)]) ∧
    (∀ content : String, fallbackTriggered content →
       pyIn "yes" (pyLower content) = false → pyIn "somewhat" (pyLower content) = false →
       pyIn "no" (pyLower content) = false →
       analyzeContent content =
         [("is_relevant", JValue.str "unknown"), ("reasoning", JValue.str content)]) := by
  refine ⟨?_, ?_, ?_, ?_⟩
  · intro content hft hyes
    rw [analyzeContent_of_fallback content hft]
    simp [keywordFallback, hyes]
  · intro content hft hyes hsome
    rw [analyzeContent_of_fallback content hft]
    simp [keywordFallback, hyes, hsome]
  · intro content hft hyes hsome hno
    rw [analyzeContent_of_fallback content hft]
    simp [keywordFallback, hyes, hsome, hno]
  · intro content hft hyes hsome hno
    rw [analyzeContent_of_fallback content hft]
    simp [keywordFallback, hyes, hsome, hno]

/-- Witness for C8: "I know this" has no braces, no "yes", no
"somewhat", but contains "no" inside "know", so the fallback verdict is
"no" with the content as reasoning. -/
theorem keyword_fallback_spec_witness :
    analyzeContent "I know this" =
      [("is_relevant", JValue.str "no"), ("reasoning", JValue.str "I know this")] :=
  keyword_fallback_spec.2.2.1 "I know this"
    (fun s fields hx _ => by
      rw [show extractBraceSpan "I know this" = none from rfl] at hx
      cases hx)
    (by decide) (by decide) (by decide)
